import Mathlib

/-
Verification of the flashcard-generation pipeline of the 10xCard repository.

The development shallowly embeds the TypeScript sources:
  src/lib/services/openrouter/errors.ts      (error taxonomy, string codes)
  src/lib/services/openrouter/utils.ts       (withRetry, normalizeMessages, createSimpleCache)
  src/lib/services/openrouter/openrouter.service.ts
      (makeRequest, handleErrorResponse, chat-level cache flow, default options)
  src/lib/services/generation.service.ts
      (generateFlashcards orchestration, target card count, extractFlashcardsFromText)

Modelling conventions:
  - JS strings are modelled as String or List Char (for the character-level
    extraction code); JS numbers that are used as integers are Nat.
  - Asynchronous effects (fetch, database inserts, sleeps) are modelled by
    explicit outcome parameters (oracles) and by returning effect records;
    a sequence of fetch attempts is a function from the attempt index to its
    outcome, since each retry re-runs the same thunk with a fresh result.
  - fetch resolves with a Response for every HTTP status (it only rejects on
    network failure or abort); this is reflected in the makeRequest model.
-/

namespace TenXCard

/-! ## Error taxonomy (src/lib/services/openrouter/errors.ts)

Each error class carries a string code; the retry logic dispatches on the
code field, so the embedding keeps the kind plus its code. -/

inductive GatewayErrorKind where
  | authentication
  | validation
  | network
  | rateLimit
  | timeout
  | modelNotFound
  | contentFilter
  | quotaExceeded
  | internalService
  | schemaInvalid
deriving DecidableEq, Repr

/-- The string code assigned by each error class constructor in errors.ts. -/
def errorCode : GatewayErrorKind → String
  | .authentication => "authentication_error"
  | .validation => "validation_error"
  | .network => "network_error"
  | .rateLimit => "rate_limit_error"
  | .timeout => "timeout_error"
  | .modelNotFound => "model_error"
  | .contentFilter => "content_filter_error"
  | .quotaExceeded => "quota_exceeded_error"
  | .internalService => "internal_service_error"
  | .schemaInvalid => "schema_validation_error"

/-! ## Retry with exponential backoff (utils.ts, withRetry) -/

structure RetryOptions where
  maxRetries : Nat
  initialDelay : Nat
  maxDelay : Nat
  backoffFactor : Nat
deriving DecidableEq, Repr

/-- The codes excluded from retry in withRetry (utils.ts lines 218-225). -/
def noRetryCodes : List String :=
  ["authentication_error", "validation_error", "content_filter_error"]

/-- Loop body of withRetry.  attempts i is the outcome of the i-th evaluation
of the retried thunk; fuel is the number of retries still allowed
(maxRetries - attempt), so fuel 0 is the final attempt.  Returns the final
outcome together with the list of sleep durations performed between
attempts, in order.  On the final attempt, the source first rethrows
no-retry codes and then breaks out of the loop rethrowing lastError; both
paths return the same error, so the fuel-0 case merges them. -/
def retryLoop {α : Type} (attempts : Nat → Except GatewayErrorKind α)
    (opts : RetryOptions) :
    Nat → Nat → Nat → List Nat → Except GatewayErrorKind α × List Nat
  | attempt, _delay, 0, sleeps =>
    match attempts attempt with
    | .ok v => (.ok v, sleeps)
    | .error e => (.error e, sleeps)
  | attempt, delay, fuel + 1, sleeps =>
    match attempts attempt with
    | .ok v => (.ok v, sleeps)
    | .error e =>
      if errorCode e ∈ noRetryCodes then (.error e, sleeps)
      else
        retryLoop attempts opts (attempt + 1)
          (min (delay * opts.backoffFactor) opts.maxDelay) fuel
          (sleeps ++ [delay])

/-- withRetry (utils.ts lines 205-236): runs the thunk up to
1 + maxRetries times, sleeping the current delay between attempts and
doubling it (capped at maxDelay); errors whose code is in noRetryCodes
are rethrown immediately. -/
def withRetry {α : Type} (attempts : Nat → Except GatewayErrorKind α)
    (opts : RetryOptions) : Except GatewayErrorKind α × List Nat :=
  retryLoop attempts opts 0 opts.initialDelay opts.maxRetries []

/-! ## HTTP layer (openrouter.service.ts) -/

/-- Outcome of one fetch call inside makeRequest: the promise either resolves
with a Response carrying an HTTP status (fetch never rejects on HTTP error
statuses), or rejects with an abort (the per-request timeout fired), or
rejects with a network-level failure. -/
inductive FetchOutcome where
  | resp (status : Nat)
  | abort
  | networkFailure
deriving DecidableEq, Repr

/-- makeRequest (openrouter.service.ts lines 459-476): returns the Response
(its status) whenever fetch resolves; an AbortError becomes TimeoutError;
other rejections propagate and are later wrapped as NetworkError by
handleFetchError, which withRetry treats identically to an error with code
network_error (not in the no-retry list). -/
def makeRequest : FetchOutcome → Except GatewayErrorKind Nat
  | .resp status => .ok status
  | .abort => .error .timeout
  | .networkFailure => .error .network

/-- handleErrorResponse (openrouter.service.ts lines 738-769): maps a non-ok
HTTP status to the error kind thrown.  The switch lists 500, 502, 503 and 504
explicitly; every unlisted status falls to the default NetworkError case. -/
def handleErrorResponse (status : Nat) : GatewayErrorKind :=
  if status = 401 then .authentication
  else if status = 400 then .validation
  else if status = 404 then .modelNotFound
  else if status = 429 then .rateLimit
  else if status = 402 then .quotaExceeded
  else if status = 403 then .contentFilter
  else if status = 500 ∨ status = 502 ∨ status = 503 ∨ status = 504 then
    .internalService
  else .network

/-- Response.ok of the Fetch API: status in the range 200-299. -/
def responseOk (status : Nat) : Prop := 200 ≤ status ∧ status < 300

instance (status : Nat) : Decidable (responseOk status) := by
  unfold responseOk; infer_instance

/-- The request path of chat (openrouter.service.ts lines 225-246), with the
response body abstracted to its HTTP status: withRetry wraps only the
makeRequest thunk; the ok-check and handleErrorResponse run on the resolved
response after withRetry has returned. -/
def gatewayCall (outcomes : Nat → FetchOutcome) (opts : RetryOptions) :
    Except GatewayErrorKind Nat × List Nat :=
  match withRetry (fun i => makeRequest (outcomes i)) opts with
  | (.ok status, sleeps) =>
    if responseOk status then (.ok status, sleeps)
    else (.error (handleErrorResponse status), sleeps)
  | (.error e, sleeps) => (.error e, sleeps)

/-- DEFAULT_RETRY_OPTIONS (openrouter.service.ts lines 60-65). -/
def defaultRetryOptions : RetryOptions :=
  { maxRetries := 3, initialDelay := 1000, maxDelay := 10000, backoffFactor := 2 }

/-! ### Stepping lemmas for the retry loop -/

lemma retryLoop_zero_unfold {α : Type} (attempts : Nat → Except GatewayErrorKind α)
    (opts : RetryOptions) (a d : Nat) (s : List Nat) :
    retryLoop attempts opts a d 0 s =
      match attempts a with
      | .ok v => (.ok v, s)
      | .error e => (.error e, s) :=
  rfl

lemma retryLoop_succ_unfold {α : Type} (attempts : Nat → Except GatewayErrorKind α)
    (opts : RetryOptions) (a d f : Nat) (s : List Nat) :
    retryLoop attempts opts a d (f + 1) s =
      match attempts a with
      | .ok v => (.ok v, s)
      | .error e =>
        if errorCode e ∈ noRetryCodes then (.error e, s)
        else
          retryLoop attempts opts (a + 1)
            (min (d * opts.backoffFactor) opts.maxDelay) f (s ++ [d]) :=
  rfl

lemma retryLoop_ok {α : Type} {attempts : Nat → Except GatewayErrorKind α}
    {opts : RetryOptions} {a : Nat} {v : α} (h : attempts a = .ok v)
    (d f : Nat) (s : List Nat) :
    retryLoop attempts opts a d f s = (.ok v, s) := by
  cases f with
  | zero => rw [retryLoop_zero_unfold]; simp only [h]
  | succ f => rw [retryLoop_succ_unfold]; simp only [h]

lemma retryLoop_step {α : Type} {attempts : Nat → Except GatewayErrorKind α}
    {opts : RetryOptions} {a : Nat} {e : GatewayErrorKind}
    (h : attempts a = .error e) (hc : errorCode e ∉ noRetryCodes)
    (d f : Nat) (s : List Nat) :
    retryLoop attempts opts a d (f + 1) s =
      retryLoop attempts opts (a + 1)
        (min (d * opts.backoffFactor) opts.maxDelay) f (s ++ [d]) := by
  rw [retryLoop_succ_unfold]
  simp only [h, if_neg hc]

lemma retryLoop_exhausted {α : Type} {attempts : Nat → Except GatewayErrorKind α}
    {opts : RetryOptions} {a : Nat} {e : GatewayErrorKind}
    (h : attempts a = .error e) (d : Nat) (s : List Nat) :
    retryLoop attempts opts a d 0 s = (.error e, s) := by
  rw [retryLoop_zero_unfold]
  simp only [h]

/-! ### C5: retry on HTTP 503 -/

/-- C5. The claim says a gateway call whose underlying request fails twice
with HTTP 503 and succeeds on the third attempt returns the successful
result after sleeping 1000ms and 2000ms, while a 401 fails immediately.
Evaluating the code at that schedule shows otherwise: fetch resolves with
the 503 response, so withRetry returns it as a success on the first attempt
and the status check outside the retry loop throws InternalServiceError with
no sleeps and no further attempt.  The third conjunct shows the withRetry
utility in isolation does implement the claimed behaviour when the
classified error is thrown inside the retried thunk, evidencing that the
call-site wiring (status check outside withRetry) is the slip. -/
theorem c5_http_retry_code_eval :
    gatewayCall (fun i => if i < 2 then .resp 503 else .resp 200)
        defaultRetryOptions
      = (.error GatewayErrorKind.internalService, []) ∧
    gatewayCall (fun _ => .resp 401) defaultRetryOptions
      = (.error GatewayErrorKind.authentication, []) ∧
    withRetry
        (fun i => if i < 2 then .error GatewayErrorKind.internalService
                  else .ok (200 : Nat))
        defaultRetryOptions
      = (.ok 200, [1000, 2000]) :=
  ⟨rfl, rfl, rfl⟩

/-! ### C6: timeout retried by the gateway -/

/-- A fetch schedule whose first attempt aborts (per-request timeout fires)
and whose second attempt resolves with HTTP 200. -/
def timeoutThenOk : Nat → FetchOutcome :=
  fun i => if i = 0 then .abort else .resp 200

/-- C6 counterexample. The claim says a TimeoutError raised by an attempt
inside the gateway is not retried further: the gateway should surface it as
a terminal failure without making another attempt.  On the schedule whose
first attempt times out and whose second attempt succeeds, the gateway
instead sleeps 1000ms, retries, and returns the success: the code
timeout_error is absent from the no-retry list of withRetry. -/
theorem c6_timeout_counterexample :
    gatewayCall timeoutThenOk defaultRetryOptions = (.ok 200, [1000]) ∧
    gatewayCall timeoutThenOk defaultRetryOptions
      ≠ (.error GatewayErrorKind.timeout, []) := by
  refine ⟨rfl, ?_⟩
  rw [show gatewayCall timeoutThenOk defaultRetryOptions = (.ok 200, [1000]) from rfl]
  simp

/-- C6 amended. A TimeoutError raised by an attempt inside the gateway is
treated as a transient failure by the retry loop: the attempt is retried
with backoff like network errors (only authentication, validation and
content-filter codes short-circuit), and the TimeoutError surfaces as a
terminal failure only when every one of the 1 + maxRetries attempts times
out. -/
theorem c6_timeout_retried (outcomes : Nat → FetchOutcome)
    (h0 : outcomes 0 = .abort) (h1 : outcomes 1 = .resp 200) :
    gatewayCall outcomes defaultRetryOptions = (.ok 200, [1000]) ∧
    gatewayCall (fun _ => .abort) defaultRetryOptions
      = (.error GatewayErrorKind.timeout, [1000, 2000, 4000]) := by
  refine ⟨?_, rfl⟩
  have s0 : (fun i => makeRequest (outcomes i)) 0
      = .error GatewayErrorKind.timeout := by
    simp [h0, makeRequest]
  have s1 : (fun i => makeRequest (outcomes i)) 1 = .ok 200 := by
    simp [h1, makeRequest]
  have w : withRetry (fun i => makeRequest (outcomes i)) defaultRetryOptions
      = (.ok 200, [1000]) := by
    unfold withRetry
    show retryLoop _ _ 0 1000 (2 + 1) [] = _
    rw [retryLoop_step s0 (by decide), retryLoop_ok s1]
    rfl
  unfold gatewayCall
  rw [w]
  rfl

/-- C6 amended witness: the retried-success branch instantiated on the
concrete schedule timeoutThenOk. -/
theorem c6_timeout_retried_witness :
    gatewayCall timeoutThenOk defaultRetryOptions = (.ok 200, [1000]) :=
  (c6_timeout_retried timeoutThenOk rfl rfl).1

/-! ### C7: error classification from HTTP status -/

/-- C7 counterexample. The claim maps every status in 500-599 to
InternalServiceError, but the switch in handleErrorResponse lists only 500,
502, 503 and 504: status 501 falls to the default case and raises
NetworkError. -/
theorem c7_classification_counterexample :
    handleErrorResponse 501 = GatewayErrorKind.network ∧
    handleErrorResponse 501 ≠ GatewayErrorKind.internalService ∧
    500 ≤ 501 ∧ 501 ≤ 599 := by
  decide

/-- C7 amended. For every non-ok HTTP status the classification raises
AuthenticationError for 401, ValidationError for 400, ModelError for 404,
RateLimitError for 429, QuotaExceededError for 402, ContentFilterError for
403, InternalServiceError exactly for the four listed statuses 500, 502,
503 and 504, and NetworkError for every other status, including the
remaining 5xx statuses such as 501. -/
theorem c7_classification (s : Nat)
    (hs : s ∉ ([401, 400, 404, 429, 402, 403, 500, 502, 503, 504] : List Nat)) :
    handleErrorResponse 401 = GatewayErrorKind.authentication ∧
    handleErrorResponse 400 = GatewayErrorKind.validation ∧
    handleErrorResponse 404 = GatewayErrorKind.modelNotFound ∧
    handleErrorResponse 429 = GatewayErrorKind.rateLimit ∧
    handleErrorResponse 402 = GatewayErrorKind.quotaExceeded ∧
    handleErrorResponse 403 = GatewayErrorKind.contentFilter ∧
    (∀ t ∈ ([500, 502, 503, 504] : List Nat),
      handleErrorResponse t = GatewayErrorKind.internalService) ∧
    handleErrorResponse s = GatewayErrorKind.network := by
  refine ⟨by decide, by decide, by decide, by decide, by decide, by decide,
    by decide, ?_⟩
  simp only [List.mem_cons, List.not_mem_nil, or_false, not_or] at hs
  obtain ⟨n401, n400, n404, n429, n402, n403, n500, n502, n503, n504⟩ := hs
  unfold handleErrorResponse
  rw [if_neg n401, if_neg n400, if_neg n404, if_neg n429, if_neg n402,
    if_neg n403, if_neg (by simp only [not_or]; exact ⟨n500, n502, n503, n504⟩)]

/-- C7 witness: the classification applied at the concrete status 418,
which is in none of the listed cases. -/
theorem c7_classification_witness :
    (418 : Nat) ∉ ([401, 400, 404, 429, 402, 403, 500, 502, 503, 504] : List Nat) ∧
    handleErrorResponse 418 = GatewayErrorKind.network :=
  ⟨by decide, (c7_classification 418 (by decide)).2.2.2.2.2.2.2⟩

/-! ## Message normalization (utils.ts, normalizeMessages, lines 138-170) -/

inductive ChatRole where
  | system
  | user
  | assistant
  | functionRole
  | tool
deriving DecidableEq, Repr

/-- A chat message; the optional name field is never consulted by the code
under verification and is omitted. -/
structure ChatMessage where
  role : ChatRole
  content : String
deriving DecidableEq, Repr

/-- JS truthiness of an optional string: undefined and the empty string are
falsy. -/
def strTruthy : Option String → Bool
  | none => false
  | some s => s ≠ ""

/-- normalizeMessages: a supplied non-empty messages array is returned as a
copy; otherwise a list is built from the system message and the user message
when each is truthy, and a ValidationError is thrown when that list ends up
empty. -/
def normalizeMessages (messages : Option (List ChatMessage))
    (userMessage systemMessage : Option String) :
    Except GatewayErrorKind (List ChatMessage) :=
  match messages with
  | some (m :: ms) => .ok (m :: ms)
  | _ =>
    let result : List ChatMessage :=
      (match systemMessage with
       | some s => if s ≠ "" then [⟨.system, s⟩] else []
       | none => []) ++
      (match userMessage with
       | some u => if u ≠ "" then [⟨.user, u⟩] else []
       | none => [])
    if result = [] then .error .validation else .ok result

/-- C10 counterexample. The claim says normalizeMessages throws
ValidationError exactly when both the user message and the system message
are absent; but a supplied empty-string user message is falsy in JS, so the
call with messages absent, userMessage given as the empty string, and
systemMessage absent throws even though the user message was given. -/
theorem c10_normalize_counterexample :
    normalizeMessages none (some "") none = .error GatewayErrorKind.validation ∧
    (some "" : Option String) ≠ none := by
  refine ⟨rfl, by simp⟩

/-- The system-message part of the built list: one system message when the
argument is truthy, nothing otherwise. -/
def builtSystemList (systemMessage : Option String) : List ChatMessage :=
  match systemMessage with
  | some str => if str ≠ "" then [⟨.system, str⟩] else []
  | none => []

/-- The user-message part of the built list: one user message when the
argument is truthy, nothing otherwise. -/
def builtUserList (userMessage : Option String) : List ChatMessage :=
  match userMessage with
  | some str => if str ≠ "" then [⟨.user, str⟩] else []
  | none => []

lemma builtSystemList_ne (s : Option String) (h : strTruthy s = true) :
    builtSystemList s ≠ [] := by
  rcases s with _ | str
  · simp [strTruthy] at h
  · simp only [strTruthy, ne_eq, decide_eq_true_eq] at h
    simp [builtSystemList, h]

lemma builtUserList_ne (u : Option String) (h : strTruthy u = true) :
    builtUserList u ≠ [] := by
  rcases u with _ | str
  · simp [strTruthy] at h
  · simp only [strTruthy, ne_eq, decide_eq_true_eq] at h
    simp [builtUserList, h]

/-- C10 amended. normalizeMessages always either returns a non-empty list
or throws ValidationError; a supplied non-empty messages array is returned
exactly, ignoring the userMessage and systemMessage arguments; when messages
is absent or empty, the result is the system message (if truthy) followed by
the user message (if truthy) - in that order - and ValidationError is
thrown exactly when both of those are absent or empty strings (JS
falsy). -/
theorem c10_normalize_spec (messages : Option (List ChatMessage))
    (u s : Option String) :
    (∀ m ms, messages = some (m :: ms) →
      normalizeMessages messages u s = .ok (m :: ms)) ∧
    (messages = none ∨ messages = some [] →
      (normalizeMessages messages u s = .error GatewayErrorKind.validation ↔
        (strTruthy u = false ∧ strTruthy s = false))) ∧
    (messages = none ∨ messages = some [] →
      strTruthy s = true ∨ strTruthy u = true →
      normalizeMessages messages u s
        = .ok (builtSystemList s ++ builtUserList u)) ∧
    (∀ out, normalizeMessages messages u s = .ok out → out ≠ []) := by
  refine ⟨?_, ?_, ?_, ?_⟩
  · rintro m ms rfl
    rfl
  · rintro (rfl | rfl) <;>
      (unfold normalizeMessages
       rcases s with _ | s <;> rcases u with _ | u <;>
         simp [strTruthy] <;>
         by_cases hu : u = "" <;> by_cases hs : s = "" <;>
         simp_all)
  · have hne : strTruthy s = true ∨ strTruthy u = true →
        builtSystemList s ++ builtUserList u ≠ [] := by
      intro htruthy hc
      rw [List.append_eq_nil] at hc
      rcases htruthy with h | h
      · exact builtSystemList_ne s h hc.1
      · exact builtUserList_ne u h hc.2
    rintro (rfl | rfl) <;>
      (intro htruthy
       show (if (builtSystemList s ++ builtUserList u) = [] then
           (Except.error GatewayErrorKind.validation :
             Except GatewayErrorKind (List ChatMessage))
         else .ok (builtSystemList s ++ builtUserList u))
         = .ok (builtSystemList s ++ builtUserList u)
       rw [if_neg (hne htruthy)])
  · intro out h
    have key : ∀ r : List ChatMessage,
        (if r = [] then (Except.error GatewayErrorKind.validation :
            Except GatewayErrorKind (List ChatMessage)) else .ok r) = .ok out →
        out ≠ [] := by
      intro r hr
      by_cases hrr : r = []
      · rw [if_pos hrr] at hr
        cases hr
      · rw [if_neg hrr] at hr
        rw [Except.ok.injEq] at hr
        subst hr
        exact hrr
    rcases messages with _ | (_ | ⟨m, ms⟩)
    · exact key _ h
    · exact key _ h
    · have hout : out = m :: ms := by
        have h' : (Except.ok (m :: ms) :
            Except GatewayErrorKind (List ChatMessage)) = .ok out := h
        rw [Except.ok.injEq] at h'
        exact h'.symm
      simp [hout]

/-- C10 witness: the amended characterization instantiated at concrete
inputs for each branch, including the build branch with both messages
truthy, which returns the system message before the user message. -/
theorem c10_normalize_witness :
    normalizeMessages (some [⟨.user, "hi"⟩]) (some "x") (some "y")
      = .ok [⟨.user, "hi"⟩] ∧
    (normalizeMessages none (some "hello") none
        = .error GatewayErrorKind.validation ↔
      (strTruthy (some "hello") = false ∧ strTruthy none = false)) ∧
    normalizeMessages none (some "hello") (some "sys")
      = .ok [⟨.system, "sys"⟩, ⟨.user, "hello"⟩] :=
  ⟨(c10_normalize_spec (some [⟨.user, "hi"⟩]) (some "x") (some "y")).1 _ _ rfl,
    (c10_normalize_spec none (some "hello") none).2.1 (Or.inl rfl),
    (c10_normalize_spec none (some "hello") (some "sys")).2.2.1 (Or.inl rfl)
      (Or.inl (by decide))⟩

/-! ## Response cache (utils.ts, createSimpleCache, lines 313-351)

A JS Map iterates in insertion order and keeps keys unique; it is embedded
as an association list in insertion order.  Map.set of an existing key
updates the binding in place (keeping its position); Map.set of a new key
appends.  Map.delete of the first key removes the head entry. -/

structure CacheEntry (V : Type) where
  value : V
  timestamp : Nat
deriving DecidableEq, Repr

abbrev CacheMap (K V : Type) := List (K × CacheEntry V)

/-- JS Map.set: update the first binding of the key in place, else append. -/
def mapSet {K V : Type} [DecidableEq K] :
    CacheMap K V → K → CacheEntry V → CacheMap K V
  | [], k, e => [(k, e)]
  | (k', e') :: rest, k, e =>
    if k' = k then (k, e) :: rest else (k', e') :: mapSet rest k e

/-- The get method: a missing key yields undefined; an entry older than ttl
(strictly) is deleted and yields undefined; otherwise the value is
returned.  The possibly-mutated map is returned alongside. -/
def cacheGet {K V : Type} [DecidableEq K] (ttl : Nat) (m : CacheMap K V)
    (k : K) (now : Nat) : Option V × CacheMap K V :=
  match m.find? (fun kv => decide (kv.1 = k)) with
  | none => (none, m)
  | some kv =>
    if now - kv.2.timestamp > ttl then
      (none, m.eraseP (fun kv => decide (kv.1 = k)))
    else (some kv.2.value, m)

/-- The set method: when the map is full (size at least maxSize), the first
key produced by the iterator - the oldest-inserted entry, the head of the
list - is deleted before inserting; then the key is set with the current
time as timestamp. -/
def cacheSet {K V : Type} [DecidableEq K] (maxSize : Nat) (m : CacheMap K V)
    (k : K) (v : V) (now : Nat) : CacheMap K V :=
  let m1 := if maxSize ≤ m.length then m.tail else m
  mapSet m1 k ⟨v, now⟩

/-- The cache interaction of chat (openrouter.service.ts lines 217-256):
when the cache exists and the per-call cache flag is not false, a cache hit
short-circuits the network request; on a miss the network response is
stored under the call key.  The network response value abstracts the
processed result of the HTTP round trip; the third component counts network
requests made by the call. -/
def chatCached {K V : Type} [DecidableEq K] (enabled bypass : Bool)
    (ttl maxSize : Nat) (key : K) (netResponse : V) (m : CacheMap K V)
    (now : Nat) : V × CacheMap K V × Nat :=
  if enabled && !bypass then
    match cacheGet ttl m key now with
    | (some v, m') => (v, m', 0)
    | (none, m') => (netResponse, cacheSet maxSize m' key netResponse now, 1)
  else (netResponse, m, 1)

lemma mapSet_fresh {K V : Type} [DecidableEq K] (m : CacheMap K V) (k : K)
    (e : CacheEntry V) (h : ∀ kv ∈ m, kv.1 ≠ k) :
    mapSet m k e = m ++ [(k, e)] := by
  induction m with
  | nil => rfl
  | cons kv rest ih =>
    obtain ⟨k', e'⟩ := kv
    have hk : k' ≠ k := h (k', e') (List.mem_cons_self _ _)
    simp only [mapSet, if_neg hk, List.cons_append, List.cons.injEq, true_and]
    exact ih (fun kv hkv => h kv (List.mem_cons_of_mem _ hkv))

lemma find?_append_fresh {K V : Type} [DecidableEq K] (m : CacheMap K V)
    (k : K) (e : CacheEntry V) (h : ∀ kv ∈ m, kv.1 ≠ k) :
    (m ++ [(k, e)]).find? (fun kv => decide (kv.1 = k)) = some (k, e) := by
  induction m with
  | nil => simp [List.find?]
  | cons kv rest ih =>
    have hk : kv.1 ≠ k := h kv (List.mem_cons_self _ _)
    simp only [List.cons_append, List.find?]
    rw [show (decide (kv.1 = k)) = false by simp [hk]]
    exact ih (fun kv hkv => h kv (List.mem_cons_of_mem _ hkv))

lemma cacheSet_fresh_find? {K V : Type} [DecidableEq K] (maxSize : Nat)
    (m : CacheMap K V) (k : K) (v : V) (ts : Nat)
    (h : ∀ kv ∈ m, kv.1 ≠ k) :
    (cacheSet maxSize m k v ts).find? (fun kv => decide (kv.1 = k))
      = some (k, ⟨v, ts⟩) := by
  unfold cacheSet
  have hsub : ∀ kv ∈ (if maxSize ≤ m.length then m.tail else m), kv.1 ≠ k := by
    intro kv hkv
    apply h
    revert hkv
    split
    · exact fun hkv => List.mem_of_mem_tail hkv
    · exact fun hkv => hkv
  rw [mapSet_fresh _ _ _ hsub]
  exact find?_append_fresh _ _ _ hsub

lemma mapSet_length_le {K V : Type} [DecidableEq K] (m : CacheMap K V)
    (k : K) (e : CacheEntry V) :
    (mapSet m k e).length ≤ m.length + 1 := by
  induction m with
  | nil => simp [mapSet]
  | cons kv rest ih =>
    obtain ⟨k', e'⟩ := kv
    by_cases hk : k' = k
    · simp [mapSet, if_pos hk]
    · simp only [mapSet, if_neg hk, List.length_cons]
      omega

lemma mapSet_mem {K V : Type} [DecidableEq K] (m : CacheMap K V) (k : K)
    (e : CacheEntry V) :
    ∀ kv ∈ mapSet m k e, kv.1 = k ∨ kv ∈ m := by
  induction m with
  | nil =>
    intro kv hkv
    simp only [mapSet, List.mem_singleton] at hkv
    subst hkv
    exact Or.inl rfl
  | cons kv' rest ih =>
    obtain ⟨k', e'⟩ := kv'
    intro kv hkv
    by_cases hk : k' = k
    · simp only [mapSet, if_pos hk, List.mem_cons] at hkv
      rcases hkv with rfl | hkv
      · exact Or.inl rfl
      · exact Or.inr (List.mem_cons_of_mem _ hkv)
    · simp only [mapSet, if_neg hk, List.mem_cons] at hkv
      rcases hkv with rfl | hkv
      · exact Or.inr (List.mem_cons_self _ _)
      · rcases ih kv hkv with h | h
        · exact Or.inl h
        · exact Or.inr (List.mem_cons_of_mem _ h)

/-- C8. With caching enabled and not bypassed for either call, a second
call with the same cache key made within ttl of the first returns the first
call's response with no network request; a set never grows the cache beyond
maxSize and evicts the oldest-inserted entry when full; and a get more than
ttl milliseconds after an entry was set returns nothing. -/
theorem c8_cache_behaviour {K V : Type} [DecidableEq K]
    (m0 : CacheMap K V) (key : K) (resp1 resp2 : V) (ttl maxSize t1 t2 : Nat)
    (mF : CacheMap K V) (kF : K) (vF : V) (tF msF : Nat)
    (k0 : K) (e0 : CacheEntry V) (rest : CacheMap K V)
    (hfresh : ∀ kv ∈ m0, kv.1 ≠ key) (_ht : t1 ≤ t2) (httl : t2 - t1 ≤ ttl)
    (hms1 : 1 ≤ msF) (hlen : mF.length ≤ msF)
    (hfullLen : ((k0, e0) :: rest).length = msF) (hknew : kF ≠ k0)
    (hnodup : ∀ kv ∈ rest, kv.1 ≠ k0)
    (now ts : Nat) (hexp : now - ts > ttl) :
    ((chatCached true false ttl maxSize key resp2
        (chatCached true false ttl maxSize key resp1 m0 t1).2.1 t2).1 = resp1 ∧
      (chatCached true false ttl maxSize key resp2
        (chatCached true false ttl maxSize key resp1 m0 t1).2.1 t2).2.2 = 0) ∧
    (cacheSet msF mF kF vF tF).length ≤ msF ∧
    (∀ kv ∈ cacheSet msF ((k0, e0) :: rest) kF vF tF, kv.1 ≠ k0) ∧
    (cacheGet ttl (cacheSet maxSize m0 key vF ts) key now).1 = none := by
  have hfind0 : m0.find? (fun kv => decide (kv.1 = key)) = none :=
    List.find?_eq_none.mpr (fun kv hkv => by simp [hfresh kv hkv])
  have hcall1 : chatCached true false ttl maxSize key resp1 m0 t1
      = (resp1, cacheSet maxSize m0 key resp1 t1, 1) := by
    unfold chatCached
    simp only [Bool.not_false, Bool.and_true, if_true]
    rw [show cacheGet ttl m0 key t1 = (none, m0) by unfold cacheGet; rw [hfind0]]
  refine ⟨?_, ?_, ?_, ?_⟩
  · rw [hcall1]
    have hfind1 : (cacheSet maxSize m0 key resp1 t1).find?
        (fun kv => decide (kv.1 = key)) = some (key, ⟨resp1, t1⟩) :=
      cacheSet_fresh_find? maxSize m0 key resp1 t1 hfresh
    have hget2 : cacheGet ttl (cacheSet maxSize m0 key resp1 t1) key t2
        = (some resp1, cacheSet maxSize m0 key resp1 t1) := by
      unfold cacheGet
      rw [hfind1]
      refine if_neg ?_
      show ¬(t2 - t1 > ttl)
      omega
    unfold chatCached
    simp only [Bool.not_false, Bool.and_true, if_true]
    rw [hget2]
    exact ⟨rfl, rfl⟩
  · unfold cacheSet
    by_cases hfull : msF ≤ mF.length
    · have : mF.length = msF := le_antisymm hlen hfull
      rw [if_pos hfull]
      calc (mapSet mF.tail kF ⟨vF, tF⟩).length ≤ mF.tail.length + 1 :=
            mapSet_length_le _ _ _
        _ ≤ msF := by
            rw [List.length_tail]
            omega
    · rw [if_neg hfull]
      calc (mapSet mF kF ⟨vF, tF⟩).length ≤ mF.length + 1 :=
            mapSet_length_le _ _ _
        _ ≤ msF := by omega
  · intro kv hkv
    have hfull : msF ≤ ((k0, e0) :: rest).length := le_of_eq hfullLen.symm
    unfold cacheSet at hkv
    rw [if_pos hfull] at hkv
    simp only [List.tail_cons] at hkv
    rcases mapSet_mem rest kF ⟨vF, tF⟩ kv hkv with h | h
    · rw [h]
      exact hknew
    · exact hnodup kv h
  · have hfind : (cacheSet maxSize m0 key vF ts).find?
        (fun kv => decide (kv.1 = key)) = some (key, ⟨vF, ts⟩) :=
      cacheSet_fresh_find? maxSize m0 key vF ts hfresh
    unfold cacheGet
    rw [hfind]
    show (if now - ts > ttl then
        ((none : Option V),
          List.eraseP (fun kv => decide (kv.1 = key))
            (cacheSet maxSize m0 key vF ts))
      else (some vF, cacheSet maxSize m0 key vF ts)).1 = none
    rw [if_pos hexp]

/-- C8 witness: the cache behaviour instantiated on concrete Nat keys and
values with the default cache options (maxSize 100, ttl five minutes). -/
theorem c8_cache_behaviour_witness :
    ((chatCached true false 300000 100 (0 : Nat) (42 : Nat)
        (chatCached true false 300000 100 (0 : Nat) (41 : Nat) [] 0).2.1
        1000).1 = 41 ∧
      (chatCached true false 300000 100 (0 : Nat) (42 : Nat)
        (chatCached true false 300000 100 (0 : Nat) (41 : Nat) [] 0).2.1
        1000).2.2 = 0) ∧
    (cacheSet 1 [((5 : Nat), (⟨(9 : Nat), 0⟩ : CacheEntry Nat))] 7 8 3).length
      ≤ 1 ∧
    (∀ kv ∈ cacheSet 1 [((5 : Nat), (⟨(9 : Nat), 0⟩ : CacheEntry Nat))] 7 8 3,
      kv.1 ≠ 5) ∧
    (cacheGet 300000 (cacheSet 100 ([] : CacheMap Nat Nat) 0 8 0) 0 300001).1
      = none := by
  have h := c8_cache_behaviour ([] : CacheMap Nat Nat) 0 41 42 300000 100 0 1000
    [(5, ⟨9, 0⟩)] 7 8 3 1 5 ⟨9, 0⟩ []
    (by simp) (by omega) (by omega) (by omega) (by simp) (by simp) (by omega)
    (by simp) 300001 0 (by omega)
  exact ⟨h.1, h.2.1, h.2.2.1, h.2.2.2⟩

/-! ## Character-level text utilities

JS strings are embedded as List Char.  The whitespace class models the
ASCII part of the JS \s class and of String.prototype.trim (the sources
only ever meet ASCII whitespace in the relevant strings). -/

def jsWhitespace (c : Char) : Bool :=
  c = ' ' || c = '\t' || c = '\n' || c = '\r' || c = '\x0b' || c = '\x0c'

/-- String.prototype.trim: strip whitespace from both ends. -/
def trimChars (l : List Char) : List Char :=
  ((l.dropWhile jsWhitespace).reverse.dropWhile jsWhitespace).reverse

/-- String.prototype.split with separator of two newline characters:
leftmost non-overlapping occurrences delimit the fields. -/
def splitParas : List Char → List Char → List (List Char)
  | [], acc => [acc.reverse]
  | '\n' :: '\n' :: rest, acc => acc.reverse :: splitParas rest []
  | c :: rest, acc => splitParas rest (c :: acc)

def digitChar (c : Char) : Bool := c.isDigit

/-- The character class of the separator in pattern 1: whitespace, dot,
closing parenthesis or colon. -/
def numberedSep (c : Char) : Bool :=
  jsWhitespace c || c = '.' || c = ')' || c = ':'

def nonNewline (c : Char) : Bool := c ≠ '\n'

def newlineChar (c : Char) : Bool := c = '\n'

def sentenceTerminator (c : Char) : Bool := c = '.' || c = '!' || c = '?'

/-! ## A small backtracking matcher for the extraction regexes

The three patterns of extractFlashcardsFromText are sequences of literals,
alternations of literals, and greedy character-class quantifiers.  A greedy
quantifier tries the longest run of class characters first and backtracks
one character at a time, exactly the JS regex engine's order; sequencing is
continuation passing, so a failure later in the pattern backtracks into
earlier quantifiers. -/

/-- Try candidate split lengths n, n-1, ..., 1 of s against the
continuation k (which receives the consumed run and the rest). -/
def greedyDesc {α : Type} (s : List Char)
    (k : List Char → List Char → Option α) : Nat → Option α
  | 0 => none
  | n + 1 =>
    match k (s.take (n + 1)) (s.drop (n + 1)) with
    | some r => some r
    | none => greedyDesc s k n

/-- Regex X+ for a character class, greedy with backtracking. -/
def plusGreedy {α : Type} (p : Char → Bool) (s : List Char)
    (k : List Char → List Char → Option α) : Option α :=
  greedyDesc s k (s.takeWhile p).length

/-- Regex X* for a character class, greedy with backtracking; the empty
run is the last candidate. -/
def starGreedy {α : Type} (p : Char → Bool) (s : List Char)
    (k : List Char → List Char → Option α) : Option α :=
  match greedyDesc s k (s.takeWhile p).length with
  | some r => some r
  | none => k [] s

/-- Case-insensitive literal: returns the rest of the input after the
literal.  The /i flag on the source regexes only ever meets ASCII letters,
matched by toLower folding. -/
def litCI : List Char → List Char → Option (List Char)
  | [], s => some s
  | _ :: _, [] => none
  | c :: cs, d :: ds => if c.toLower = d.toLower then litCI cs ds else none

/-- Ordered alternation of two literals (regex A|B): A is tried first and
the continuation failure backtracks to B. -/
def altBacktrack {α : Type} (litA litB : List Char) (s : List Char)
    (k : List Char → Option α) : Option α :=
  match litCI litA s with
  | some r =>
    (match k r with
     | some v => some v
     | none =>
       match litCI litB s with
       | some r2 => k r2
       | none => none)
  | none =>
    match litCI litB s with
    | some r2 => k r2
    | none => none

/-- An anchored pattern match: the two captured groups and the rest of the
input after the match. -/
abbrev PatternMatch := Option (List Char × List Char × List Char)

/-! ## extractFlashcardsFromText (generation.service.ts lines 243-329) -/

/-- FlashcardProposalDto (src/types.ts): front, back and the fixed source
tag. -/
structure FlashcardProposalDto where
  front : List Char
  back : List Char
  source : String
deriving DecidableEq, Repr

/-- Pattern 1 anchored at a position: digits, then one or more separator
characters, then a line (first capture), newlines, then a line (second
capture). -/
def matchNumberedAt (s : List Char) : PatternMatch :=
  plusGreedy digitChar s fun _ r1 =>
  plusGreedy numberedSep r1 fun _ r2 =>
  plusGreedy nonNewline r2 fun front r3 =>
  plusGreedy newlineChar r3 fun _ r4 =>
  plusGreedy nonNewline r4 fun back r5 =>
  some (front, back, r5)

/-- Pattern 2 anchored at a position (case-insensitive): a Front: line and
a Back: line separated by newlines. -/
def matchFrontBackAt (s : List Char) : PatternMatch :=
  match litCI "Front:".toList s with
  | none => none
  | some r1 =>
    starGreedy jsWhitespace r1 fun _ r2 =>
    plusGreedy nonNewline r2 fun front r3 =>
    plusGreedy newlineChar r3 fun _ r4 =>
    match litCI "Back:".toList r4 with
    | none => none
    | some r5 =>
      starGreedy jsWhitespace r5 fun _ r6 =>
      plusGreedy nonNewline r6 fun back r7 =>
      some (front, back, r7)

/-- Pattern 3 anchored at a position (case-insensitive): a Question:/Q:
line and an Answer:/A: line.  The source alternation (?:Question|Q)
followed by a colon is equivalent to the literal alternation of
Question: and Q: since literals contain no choice points. -/
def matchQAAt (s : List Char) : PatternMatch :=
  altBacktrack "Question:".toList "Q:".toList s fun r1 =>
  starGreedy jsWhitespace r1 fun _ r2 =>
  plusGreedy nonNewline r2 fun front r3 =>
  plusGreedy newlineChar r3 fun _ r4 =>
  altBacktrack "Answer:".toList "A:".toList r4 fun r5 =>
  starGreedy jsWhitespace r5 fun _ r6 =>
  plusGreedy nonNewline r6 fun back r7 =>
  some (front, back, r7)

/-- Leftmost match at or after the current position, as regex exec with
the global flag performs: the anchored matcher is tried at each successive
start position.  None of the three patterns can match the empty string, so
nothing matches at the end of input. -/
def findMatch (m : List Char → PatternMatch) : List Char → PatternMatch
  | [] => none
  | c :: rest =>
    match m (c :: rest) with
    | some r => some r
    | none => findMatch m rest

/-- One while-loop of extractFlashcardsFromText: repeatedly exec the
pattern (resuming after the previous match, as the lastIndex of a global
regex does) while fewer than expectedCount cards are collected, pushing a
card whenever the two trimmed captures are non-empty.  Every match consumes
at least one character, so fuel = text length + 1 runs the loop to
completion. -/
def collectMatches (m : List Char → PatternMatch) :
    Nat → List Char → Nat → List FlashcardProposalDto →
    List FlashcardProposalDto
  | 0, _, _, acc => acc
  | fuel + 1, s, expectedCount, acc =>
    if acc.length < expectedCount then
      match findMatch m s with
      | none => acc
      | some (front, back, rest) =>
        let f := trimChars front
        let b := trimChars back
        collectMatches m fuel rest expectedCount
          (if f ≠ [] ∧ b ≠ [] then acc ++ [⟨f, b, "ai-full"⟩] else acc)
    else acc

/-- The cards produced by pattern 1 alone, from an empty accumulator. -/
def numberedCards (text : List Char) (expectedCount : Nat) :
    List FlashcardProposalDto :=
  collectMatches matchNumberedAt (text.length + 1) text expectedCount []

/-- The three pattern blocks of extractFlashcardsFromText, in source
order: pattern 1 always runs; patterns 2 and 3 run only while fewer than
expectedCount cards have been collected, appending to the same array. -/
def patternCards (text : List Char) (expectedCount : Nat) :
    List FlashcardProposalDto :=
  let fc1 := numberedCards text expectedCount
  let fc2 :=
    if fc1.length < expectedCount then
      collectMatches matchFrontBackAt (text.length + 1) text expectedCount fc1
    else fc1
  if fc2.length < expectedCount then
    collectMatches matchQAAt (text.length + 1) text expectedCount fc2
  else fc2

/-- The last-resort block of extractFlashcardsFromText: split into
paragraphs on blank lines, keep the non-blank ones, and for each of the
first min(paragraphs, expectedCount) paragraphs longer than 10 characters
split at the first sentence terminator into front and back (with a default
back when nothing follows the terminator), or synthesize a generic question
when the terminator is absent or at position 0. -/
def paragraphCards (text : List Char) (expectedCount : Nat) :
    List FlashcardProposalDto :=
  let paragraphs := (splitParas text []).filter
    (fun p => (trimChars p).length > 0)
  (paragraphs.take (min paragraphs.length expectedCount)).filterMap
    fun para =>
      let p := trimChars para
      if p.length > 10 then
        match p.findIdx? sentenceTerminator with
        | some i =>
          if 0 < i then
            let back0 := trimChars (p.drop (i + 1))
            some ⟨p.take (i + 1),
              if back0 = [] then "Review this content for details.".toList
              else back0,
              "ai-full"⟩
          else some ⟨"What is important about this content?".toList, p,
            "ai-full"⟩
        | none => some ⟨"What is important about this content?".toList, p,
          "ai-full"⟩
      else none

/-- extractFlashcardsFromText: the three pattern blocks, then the
paragraph fallback only when they produced nothing at all. -/
def extractFlashcardsFromText (text : List Char) (expectedCount : Nat) :
    List FlashcardProposalDto :=
  let fc := patternCards text expectedCount
  if fc.length = 0 then paragraphCards text expectedCount else fc

/-! ## Target card count (generation.service.ts lines 147-151) -/

/-- The card count of makeAiServiceRequest:
Math.min(Math.max(Math.floor(length / 1000), 5), 10). -/
def targetCardCount (sourceText : List Char) : Nat :=
  min (max (sourceText.length / 1000) 5) 10

/-- C2. The target flashcard count equals clamp(floor(len/1000), 5, 10);
source lengths 1000, 4500, 9999 and 10000 yield 5, 5, 9 and 10. -/
theorem c2_count_scaling (t : List Char) :
    targetCardCount t = min (max (t.length / 1000) 5) 10 ∧
    targetCardCount (List.replicate 1000 'a') = 5 ∧
    targetCardCount (List.replicate 4500 'a') = 5 ∧
    targetCardCount (List.replicate 9999 'a') = 9 ∧
    targetCardCount (List.replicate 10000 'a') = 10 := by
  have h : ∀ n : Nat, targetCardCount (List.replicate n 'a')
      = min (max (n / 1000) 5) 10 := by
    intro n
    unfold targetCardCount
    rw [List.length_replicate]
  refine ⟨rfl, ?_, ?_, ?_, ?_⟩ <;> (rw [h]; decide)


/-! ### Structure of the extraction ladder (C3, C9) -/

lemma collectMatches_succ_unfold (m : List Char → PatternMatch) (fuel : Nat)
    (s : List Char) (n : Nat) (acc : List FlashcardProposalDto) :
    collectMatches m (fuel + 1) s n acc =
      if acc.length < n then
        match findMatch m s with
        | none => acc
        | some (front, back, rest) =>
          collectMatches m fuel rest n
            (if trimChars front ≠ [] ∧ trimChars back ≠ [] then
              acc ++ [⟨trimChars front, trimChars back, "ai-full"⟩]
            else acc)
      else acc :=
  rfl

lemma collectMatches_append (m : List Char → PatternMatch) :
    ∀ (fuel : Nat) (s : List Char) (n : Nat) (acc : List FlashcardProposalDto),
      ∃ r, collectMatches m fuel s n acc = acc ++ r := by
  intro fuel
  induction fuel with
  | zero => exact fun s n acc => ⟨[], by simp [collectMatches]⟩
  | succ fuel ih =>
    intro s n acc
    rw [collectMatches_succ_unfold]
    by_cases hlen : acc.length < n
    · rw [if_pos hlen]
      match hfind : findMatch m s with
      | none => exact ⟨[], by simp⟩
      | some (front, back, rest) =>
        show ∃ r, collectMatches m fuel rest n
          (if trimChars front ≠ [] ∧ trimChars back ≠ [] then
            acc ++ [⟨trimChars front, trimChars back, "ai-full"⟩]
          else acc) = acc ++ r
        by_cases hpush : trimChars front ≠ [] ∧ trimChars back ≠ []
        · rw [if_pos hpush]
          obtain ⟨r, hr⟩ := ih rest n
            (acc ++ [⟨trimChars front, trimChars back, "ai-full"⟩])
          exact ⟨⟨trimChars front, trimChars back, "ai-full"⟩ :: r,
            by rw [hr]; simp⟩
        · rw [if_neg hpush]
          exact ih rest n acc
    · rw [if_neg hlen]
      exact ⟨[], by simp⟩

lemma collectMatches_length_le (m : List Char → PatternMatch) :
    ∀ (fuel : Nat) (s : List Char) (n : Nat) (acc : List FlashcardProposalDto),
      acc.length ≤ n → (collectMatches m fuel s n acc).length ≤ n := by
  intro fuel
  induction fuel with
  | zero =>
    intro s n acc h
    simpa [collectMatches] using h
  | succ fuel ih =>
    intro s n acc h
    rw [collectMatches_succ_unfold]
    by_cases hlen : acc.length < n
    · rw [if_pos hlen]
      match findMatch m s with
      | none => exact h
      | some (front, back, rest) =>
        show (collectMatches m fuel rest n
          (if trimChars front ≠ [] ∧ trimChars back ≠ [] then
            acc ++ [⟨trimChars front, trimChars back, "ai-full"⟩]
          else acc)).length ≤ n
        apply ih
        by_cases hpush : trimChars front ≠ [] ∧ trimChars back ≠ []
        · rw [if_pos hpush]
          simp only [List.length_append, List.length_singleton]
          omega
        · rw [if_neg hpush]
          exact h
    · rw [if_neg hlen]
      exact h

/-- The let bindings of patternCards zeta-expanded. -/
lemma patternCards_eq (t : List Char) (n : Nat) :
    patternCards t n =
      if (if (numberedCards t n).length < n then
            collectMatches matchFrontBackAt (t.length + 1) t n
              (numberedCards t n)
          else numberedCards t n).length < n then
        collectMatches matchQAAt (t.length + 1) t n
          (if (numberedCards t n).length < n then
            collectMatches matchFrontBackAt (t.length + 1) t n
              (numberedCards t n)
          else numberedCards t n)
      else
        if (numberedCards t n).length < n then
          collectMatches matchFrontBackAt (t.length + 1) t n
            (numberedCards t n)
        else numberedCards t n :=
  rfl

/-- One guarded pattern block extends its accumulator on the right. -/
lemma guardedBlock_append (m : List Char → PatternMatch) (t : List Char)
    (fuel n : Nat) (acc : List FlashcardProposalDto) :
    ∃ r, (if acc.length < n then collectMatches m fuel t n acc else acc)
      = acc ++ r := by
  by_cases h : acc.length < n
  · rw [if_pos h]
    exact collectMatches_append m fuel t n acc
  · rw [if_neg h]
    exact ⟨[], by simp⟩

/-- One guarded pattern block preserves the expectedCount length bound. -/
lemma guardedBlock_length_le (m : List Char → PatternMatch) (t : List Char)
    (fuel n : Nat) (acc : List FlashcardProposalDto) (h : acc.length ≤ n) :
    (if acc.length < n then collectMatches m fuel t n acc else acc).length
      ≤ n := by
  by_cases hc : acc.length < n
  · rw [if_pos hc]
    exact collectMatches_length_le m fuel t n acc h
  · rw [if_neg hc]
    exact h

lemma patternCards_length_le (t : List Char) (n : Nat) :
    (patternCards t n).length ≤ n := by
  rw [patternCards_eq]
  apply guardedBlock_length_le
  apply guardedBlock_length_le
  exact collectMatches_length_le _ _ _ _ _ (by simp)

lemma paragraphCards_length_le (t : List Char) (n : Nat) :
    (paragraphCards t n).length ≤ n := by
  unfold paragraphCards
  refine le_trans (List.length_filterMap_le _ _) ?_
  simp only [List.length_take]
  omega

/-- The concrete model response of the C3 counterexample: one card in the
numbered format followed by one card in the Front:/Back: format. -/
def mixedFormatsText : List Char :=
  ("1) What is X\nX is a thing\n\nFront: What is Y\nBack: Y is a thing").toList

/-- A model response in unstructured prose: no pattern matches, only the
paragraph fallback applies. -/
def proseText : List Char :=
  ("This is a plain paragraph about biology. It explains cells in detail.").toList

/-- C3 counterexample. The claim says each strategy is tried only if the
previous one produced nothing and a strategy producing any items stops the
ladder, so the returned list should contain items of exactly one strategy.
On a response holding one numbered-format card and one Front:/Back: card
with expectedCount 5, pattern 1 produces one item, yet the returned list
extends it with the Front:/Back: item of pattern 2: the pattern blocks are
guarded by fewer-than-expectedCount, not by emptiness, and append to the
same array. -/
theorem c3_ladder_counterexample :
    numberedCards mixedFormatsText 5 ≠ [] ∧
    extractFlashcardsFromText mixedFormatsText 5
      ≠ numberedCards mixedFormatsText 5 ∧
    extractFlashcardsFromText mixedFormatsText 5 =
      numberedCards mixedFormatsText 5 ++
        [⟨("What is Y").toList, ("Y is a thing").toList, "ai-full"⟩] := by
  refine ⟨by decide, by decide, by decide⟩

/-- C3 amended. Pattern 1 always runs first and its items form a prefix of
the pattern-phase result; patterns 2 and 3 are tried whenever fewer than
expectedCount items have been collected so far and append their matches, so
the result can mix items of several pattern strategies; only the last-resort
paragraph strategy is gated on the patterns having produced nothing at
all. -/
theorem c3_ladder_structure (t : List Char) (n : Nat) :
    (∃ r, patternCards t n = numberedCards t n ++ r) ∧
    (patternCards t n ≠ [] →
      extractFlashcardsFromText t n = patternCards t n) ∧
    (patternCards t n = [] →
      extractFlashcardsFromText t n = paragraphCards t n) := by
  refine ⟨?_, ?_, ?_⟩
  · rw [patternCards_eq]
    obtain ⟨r2, hr2⟩ := guardedBlock_append matchFrontBackAt t (t.length + 1)
      n (numberedCards t n)
    rw [hr2]
    obtain ⟨r3, hr3⟩ := guardedBlock_append matchQAAt t (t.length + 1) n
      (numberedCards t n ++ r2)
    rw [hr3]
    exact ⟨r2 ++ r3, by rw [List.append_assoc]⟩
  · intro h
    unfold extractFlashcardsFromText
    rw [if_neg (by simpa [List.length_eq_zero] using h)]
  · intro h
    unfold extractFlashcardsFromText
    rw [if_pos (by simp [h])]

/-- C3 witness: the amended structure instantiated on the mixed-format
response (pattern phase non-empty) and on unstructured prose (pattern
phase empty, so the paragraph fallback applies). -/
theorem c3_ladder_structure_witness :
    extractFlashcardsFromText mixedFormatsText 5
      = patternCards mixedFormatsText 5 ∧
    extractFlashcardsFromText proseText 3 = paragraphCards proseText 3 :=
  ⟨(c3_ladder_structure mixedFormatsText 5).2.1 (by decide),
    (c3_ladder_structure proseText 3).2.2 (by decide)⟩

/-- C9. Free-text extraction is total in the model (every loop of the
source consumes input on each iteration and is run to completion here with
fuel covering the input), so it returns a possibly-empty list for every
text and expectedCount; the last-resort paragraph strategy produces at
most expectedCount items, and in fact the whole extraction result is
bounded by expectedCount as well. -/
theorem c9_extraction_bounds (t : List Char) (n : Nat) :
    (paragraphCards t n).length ≤ n ∧
    (extractFlashcardsFromText t n).length ≤ n := by
  refine ⟨paragraphCards_length_le t n, ?_⟩
  unfold extractFlashcardsFromText
  by_cases h : (patternCards t n).length = 0
  · rw [if_pos h]
    exact paragraphCards_length_le t n
  · rw [if_neg h]
    exact patternCards_length_le t n

end TenXCard

namespace TenXCard

/-! ## Generation orchestrator (generation.service.ts, generateFlashcards)

The database and the AI call are external collaborators; each await is
given an explicit outcome parameter, and the rows the service writes are
collected in an effects record. -/

/-- The row inserted into the generations table (lines 53-63). -/
structure GenerationInsertRow where
  user_id : String
  model : String
  source_text_hash : List Char
  source_text_length : Nat
  generated_count : Nat
  accepted_count : Nat
deriving DecidableEq, Repr

/-- The row inserted into the generation_error_logs table (lines 343-351). -/
structure ErrorLogRow where
  user_id : String
  error_code : String
  error_message : String
  generation_id : Nat
  model : String
  source_text_hash : List Char
  source_text_length : Nat
deriving DecidableEq, Repr

/-- The externally observable effects of one generateFlashcards call:
generation-table inserts, generation-table updates (id and new
generated_count), error-log inserts, and the number of AI service calls
started. -/
structure DbEffects where
  generationInserts : List GenerationInsertRow
  generationUpdates : List (Nat × Nat)
  errorLogInserts : List ErrorLogRow
  aiCalls : Nat
deriving DecidableEq, Repr

def noEffects : DbEffects := ⟨[], [], [], 0⟩

/-- A JS Error value as thrown and caught: its name and message. -/
structure JsError where
  name : String
  message : String
deriving DecidableEq, Repr

/-- Outcome of the generations-table insert: a created record id, a
database error, or a resolved call with no record returned. -/
inductive InsertOutcome where
  | ok (id : Nat)
  | dbError (msg : String)
  | noRecord
deriving DecidableEq, Repr

/-- Outcome of callAiService: the proposals, or the error it throws
(including the 40-second race timeout, rewritten by callAiService to
an Error with the message about timing out after 40 seconds). -/
inductive AiOutcome where
  | ok (cards : List FlashcardProposalDto)
  | failure (e : JsError)
deriving DecidableEq, Repr

/-- Outcome of the generated_count update; a failure here is only logged
to the console and never fails the call. -/
inductive UpdateOutcome where
  | ok
  | dbError (msg : String)
deriving DecidableEq, Repr

/-- The model identifier of the service. -/
def generationModelName : String := "openai/gpt-4.1-nano"

/-- logGenerationError (lines 334-356): the inserted error-log rows.  The
error code is the error name with a fallback on falsy names; a missing
generationId falls back to 0 (and a passed 0 stays 0, as the JS
or-fallback does).  A failing log insert is swallowed (console only), so
logOk false yields no row. -/
def logGenerationError (userId : String) (e : JsError) (hash : List Char)
    (len : Nat) (generationId : Option Nat) (logOk : Bool) :
    List ErrorLogRow :=
  if logOk then
    [⟨userId, if e.name ≠ "" then e.name else "Error", e.message,
      generationId.getD 0, generationModelName, hash, len⟩]
  else []

def validationMessage : String :=
  "Source text must be between 1000 and 10000 characters"

/-- generateFlashcards (lines 41-104).  The out-of-range check throws
before the try block, so nothing is inserted and no error is logged for
it.  In every catch path, logGenerationError is called with four
arguments - the generationId parameter is NOT passed, also when the
generation record was already created. -/
def generateFlashcards (userId : String) (sourceText : List Char)
    (hashFn : List Char → List Char) (insertOutcome : InsertOutcome)
    (aiOutcome : AiOutcome) (_updateOutcome : UpdateOutcome)
    (logOk : Bool) :
    Except JsError (Nat × List FlashcardProposalDto) × DbEffects :=
  if sourceText.length < 1000 ∨ sourceText.length > 10000 then
    (.error ⟨"Error", validationMessage⟩, noEffects)
  else
    let sourceTextHash := hashFn sourceText
    let sourceTextLength := sourceText.length
    let insertRow : GenerationInsertRow :=
      ⟨userId, generationModelName, sourceTextHash, sourceTextLength, 0, 0⟩
    match insertOutcome with
    | .dbError msg =>
      let e : JsError := ⟨"Error", "Failed to create generation: " ++ msg⟩
      (.error e,
        ⟨[insertRow], [],
          logGenerationError userId e sourceTextHash sourceTextLength
            none logOk, 0⟩)
    | .noRecord =>
      let e : JsError :=
        ⟨"Error", "Failed to create generation: No record returned"⟩
      (.error e,
        ⟨[insertRow], [],
          logGenerationError userId e sourceTextHash sourceTextLength
            none logOk, 0⟩)
    | .ok generationId =>
      match aiOutcome with
      | .failure e =>
        (.error e,
          ⟨[insertRow], [],
            logGenerationError userId e sourceTextHash sourceTextLength
              none logOk, 1⟩)
      | .ok cards =>
        (.ok (generationId, cards),
          ⟨[insertRow], [(generationId, cards.length)], [], 1⟩)

/-- C1. For every sourceText shorter than 1000 or longer than 10000
characters, generateFlashcards fails with the validation error and
performs no effect at all: no AI call, no generation insert, no error-log
insert.  For every in-range sourceText the validation passes: the call
proceeds to insert the generation record regardless of the later
outcomes. -/
theorem c1_length_validation (userId : String) (sourceText : List Char)
    (hashFn : List Char → List Char) (io : InsertOutcome) (ao : AiOutcome)
    (uo : UpdateOutcome) (logOk : Bool) :
    (sourceText.length < 1000 ∨ sourceText.length > 10000 →
      generateFlashcards userId sourceText hashFn io ao uo logOk
        = (.error ⟨"Error", validationMessage⟩, noEffects)) ∧
    (1000 ≤ sourceText.length → sourceText.length ≤ 10000 →
      (generateFlashcards userId sourceText hashFn io ao uo logOk).2.generationInserts
        = [⟨userId, generationModelName, hashFn sourceText,
            sourceText.length, 0, 0⟩]) := by
  constructor
  · intro h
    unfold generateFlashcards
    rw [if_pos h]
  · intro h1 h2
    have hneg : ¬(sourceText.length < 1000 ∨ sourceText.length > 10000) := by
      omega
    unfold generateFlashcards
    rw [if_neg hneg]
    cases io with
    | dbError msg => rfl
    | noRecord => rfl
    | ok id =>
      cases ao with
      | failure e => rfl
      | ok cards => rfl

set_option maxRecDepth 8192 in
/-- C1 witness: the out-of-range branch on the empty text and the
in-range branch on a 1000-character text. -/
theorem c1_length_validation_witness :
    generateFlashcards "u" [] (fun _ => []) (.ok 7) (.ok []) .ok true
      = (.error ⟨"Error", validationMessage⟩, noEffects) ∧
    (generateFlashcards "u" (List.replicate 1000 'a') (fun _ => [])
        (.ok 7) (.ok []) .ok true).2.generationInserts
      = [⟨"u", generationModelName, [], 1000, 0, 0⟩] := by
  constructor
  · exact (c1_length_validation "u" [] (fun _ => []) (.ok 7) (.ok []) .ok
      true).1 (Or.inl (by decide))
  · have h := (c1_length_validation "u" (List.replicate 1000 'a')
      (fun _ => []) (.ok 7) (.ok []) .ok true).2 (by simp) (by simp)
    simpa using h

set_option maxRecDepth 8192 in
/-- C4. The claim says a generation failing after the GenerationRecord was
created writes one GenerationErrorLog referencing that record's id.
Evaluating generateFlashcards where record creation succeeds with id 7 and
the AI call then fails: exactly one error log is written, but its
generation_id is 0, not 7, because the catch block calls
logGenerationError without the generationId argument.  The second conjunct
is the half of the claim the code does satisfy: a failure before record
creation logs exactly one entry with generation_id 0.  The doc comment of
logGenerationError's generation_id fallback in the source says 0 is for
errors before generation creation, which the call-site omission
contradicts. -/
theorem c4_error_log_code_eval :
    ((generateFlashcards "u" (List.replicate 1000 'a') (fun _ => [])
        (.ok 7)
        (.failure ⟨"Error", "AI generation timed out after 40 seconds"⟩)
        .ok true).2.errorLogInserts.map (fun r => r.generation_id) = [0]) ∧
    ((generateFlashcards "u" (List.replicate 1000 'a') (fun _ => [])
        (.dbError "connection lost") (.ok []) .ok
        true).2.errorLogInserts.map (fun r => r.generation_id) = [0]) := by
  refine ⟨by decide, by decide⟩

end TenXCard
